import Mathlib

/-!
Verification of the MyT `mytoyota.controller.Controller` class
(src/mytoyota/controller.py) against its natural-language specification.

The controller is shallowly embedded: JSON payloads become an inductive
`Json` type, the mutable instance attributes become the `Controller`
structure threaded through pure functions, `datetime.now()` becomes an
integer parameter `now` (seconds), HTTP traffic becomes explicit `Resp`
values supplied by an environment (`LoginEnv`), and Python exceptions
become the `PyErr` sum returned through `Except` / `Option PyErr`.
-/

/-- JSON values, as produced by `resp.json()` in the source. Numbers are
modelled as integers: every numeric field the controller touches
(`expires_in`, HTTP statuses) is integral. -/
inductive Json where
  | null
  | bool (b : Bool)
  | num (n : Int)
  | str (s : String)
  | arr (xs : List Json)
  | obj (kvs : List (String × Json))

/-- Python exceptions the embedded code can raise.  `loginError`,
`internalError` and `apiError` are `ToyotaLoginError`,
`ToyotaInternalError` and `ToyotaApiError` from mytoyota.exceptions
(each carries its message string); `keyError`, `indexError` and
`typeError` are the built-in Python exceptions; `jwtError` stands for
the `jwt` library's decode failures. -/
inductive PyErr where
  | loginError (msg : String)
  | internalError (msg : String)
  | apiError (msg : String)
  | keyError (key : String)
  | indexError
  | typeError
  | jwtError (msg : String)

/-- Dictionary lookup: `d.get(k)` on a JSON object, `none` otherwise. -/
def Json.jGet (j : Json) (k : String) : Option Json :=
  match j with
  | .obj kvs => kvs.lookup k
  | _ => none

/-- Python `k in d` for a JSON object (the only shape the controller
ever tests membership on; `resp.json()` is annotated `Dict[str, Any]`). -/
def Json.hasKey (j : Json) (k : String) : Bool :=
  (j.jGet k).isSome

/-- Python subscript `d[k]` with a string key: `KeyError` when the key is
absent from a dict, `TypeError` on non-dict values (list/str subscripts
with a string key raise `TypeError` in Python). -/
def Json.pyGet (j : Json) (k : String) : Except PyErr Json :=
  match j with
  | .obj kvs =>
    match kvs.lookup k with
    | some v => .ok v
    | none => .error (.keyError k)
  | _ => .error .typeError

/-- Python subscript `l[n]` with a non-negative integer index. On a dict
with string keys an integer key is never present, hence `KeyError`. -/
def Json.pyIdx (j : Json) (n : Nat) : Except PyErr Json :=
  match j with
  | .arr xs =>
    match xs.get? n with
    | some x => .ok x
    | none => .error .indexError
  | .obj _ => .error (.keyError (toString n))
  | .str s =>
    match s.toList.get? n with
    | some c => .ok (.str (String.singleton c))
    | none => .error .indexError
  | _ => .error .typeError

/-- First-occurrence-in-place update of an association list: Python's
`d[k] = v` keeps the position of an existing key and appends a new one. -/
def setAssoc (kvs : List (String × Json)) (k : String) (v : Json) : List (String × Json) :=
  match kvs with
  | [] => [(k, v)]
  | (k1, v1) :: rest => if k1 = k then (k1, v) :: rest else (k1, v1) :: setAssoc rest k v

/-- Python `d[k] = v` on a JSON object (creates the key when absent).
Only ever applied to objects in the embedded code. -/
def Json.setKey (j : Json) (k : String) (v : Json) : Json :=
  match j with
  | .obj kvs => .obj (setAssoc kvs k v)
  | _ => j

/-- Python truthiness of a JSON value (`if self._token`). -/
def Json.truthy : Json → Bool
  | .null => false
  | .bool b => b
  | .num n => n != 0
  | .str s => !s.isEmpty
  | .arr xs => !xs.isEmpty
  | .obj kvs => !kvs.isEmpty

/-- Truthiness of an `Optional` attribute (`None` is falsy). -/
def optTruthy : Option Json → Bool
  | none => false
  | some j => j.truthy

/-- Python `str()` of the value held in an `Optional[str]`-annotated slot,
as used by the f-string `f"Bearer {self._token}"`: `str(None)` is
`"None"`, strings render verbatim, other JSON values by their Python
rendering (only ever a string or `None` in practice). -/
def pyStrOpt : Option Json → String
  | none => "None"
  | some .null => "None"
  | some (.bool b) => if b then "True" else "False"
  | some (.num n) => toString n
  | some (.str s) => s
  | some (.arr _) => "[...]"
  | some (.obj _) => "\x7b...\x7d"

/-- One HTTP response as the controller observes it: `status_code`,
`text`, `json()` and the `location` response header. -/
structure Resp where
  status : Nat
  text : String
  body : Json
  location : Option String

/-- The mutable attributes of `Controller` set in `__init__`
(lines 21-32): `_username`, `_password`, `_token`, `_token_expiration`,
`_refresh_token`, `_uuid`, `_timeout`.  Timestamps are integers. -/
structure Controller where
  username : String
  password : String
  token : Option Json
  tokenExpiration : Option Int
  refreshToken : Option Json
  uuid : Option Json
  timeout : Int

/-- `Controller.__init__(username, password, timeout)`: all session
attributes start as `None`. -/
def initController (username password : String) (timeout : Int) : Controller :=
  ⟨username, password, none, none, none, none, timeout⟩

/-- `Controller._is_token_valid` (lines 115-120), exactly as written:

    if self._token or self._token_expiration is None:
        return False
    return self._token_expiration > datetime.now()
-/
def isTokenValid (c : Controller) (now : Int) : Bool :=
  if optTruthy c.token || c.tokenExpiration.isNone then false
  else
    match c.tokenExpiration with
    | some e => decide (now < e)
    | none => false

/-- Modelled from the spec: the session-validity predicate as the
specification words it — true exactly when an access token is present
AND the stored expiry is strictly in the future.  Stated for comparison
with `isTokenValid`, the predicate the code actually implements. -/
def sessionValidSpec (c : Controller) (now : Int) : Bool :=
  c.token.isSome &&
    match c.tokenExpiration with
    | some e => decide (now < e)
    | none => false

/-- A controller state holding a live token: `_token = "tok"`,
`_token_expiration = 3600`, evaluated at `now = 0`. -/
def liveTokenState : Controller :=
  ⟨"u", "p", some (.str "tok"), some 3600, none, none, 30⟩

/-- A controller state with no token at all but a future expiry. -/
def noTokenState : Controller :=
  ⟨"u", "p", none, some 3600, none, none, 30⟩

/-- `cb["input"][0]["value"] = v` (lines 55 and 57): set the value slot of
the first input entry of a callback prompt.  The outer two subscripts
are reads (`KeyError` / `IndexError` / `TypeError` on malformed prompts);
the innermost is a dict assignment, which creates the key if absent and
raises `TypeError` when the target is not a dict. -/
def setInput (cb : Json) (v : String) : Except PyErr Json :=
  match cb.pyGet "input" with
  | .error e => .error e
  | .ok inp =>
    match inp with
    | .arr [] => .error .indexError
    | .arr (i0 :: rest) =>
      match i0 with
      | .obj _ => .ok (cb.setKey "input" (.arr (i0.setKey "value" (.str v) :: rest)))
      | _ => .error .typeError
    | .obj _ => .error (.keyError "0")
    | .str s =>
      match s.toList.get? 0 with
      | some _ => .error .typeError
      | none => .error .indexError
    | _ => .error .typeError

/-- The body of the `for cb in data["callbacks"]` loop (lines 53-57) for
one callback prompt:

    if cb["type"] == "NameCallback" and cb["output"][0]["value"] == "User Name":
        cb["input"][0]["value"] = self._username
    elif cb["type"] == "PasswordCallback":
        cb["input"][0]["value"] = self._password

`and` short-circuits, so the output subscripts are evaluated only when
the type equals `"NameCallback"`; every other type falls through both
branches untouched. -/
def fillCb (username password : String) (cb : Json) : Except PyErr Json :=
  match cb.pyGet "type" with
  | .error e => .error e
  | .ok t =>
    match t with
    | .str s =>
      if s = "NameCallback" then
        match (do
            let out ← cb.pyGet "output"
            let o0 ← out.pyIdx 0
            o0.pyGet "value" : Except PyErr Json) with
        | .error e => .error e
        | .ok ov =>
          match ov with
          | .str w => if w = "User Name" then setInput cb username else .ok cb
          | _ => .ok cb
      else if s = "PasswordCallback" then setInput cb password
      else .ok cb
    | _ => .ok cb

/-- The `for cb in data["callbacks"]` loop over the whole prompt list:
prompts are processed left to right and the first raised exception
aborts the loop. -/
def fillCallbacks (username password : String) : List Json → Except PyErr (List Json)
  | [] => .ok []
  | cb :: rest =>
    match fillCb username password cb with
    | .error e => .error e
    | .ok cb1 =>
      match fillCallbacks username password rest with
      | .error e => .error e
      | .ok rest1 => .ok (cb1 :: rest1)

/-- Lines 52-57: when the previous response body carries a `callbacks`
entry, run the fill loop over it (re-assembling the mutated list in
place); a body without the key is posted unchanged.  A non-list
`callbacks` value makes Python's `for` loop fail unless it is an empty
iterable. -/
def fillData (username password : String) (data : Json) : Except PyErr Json :=
  if data.hasKey "callbacks" then
    match data.jGet "callbacks" with
    | some (.arr cbs) =>
      match fillCallbacks username password cbs with
      | .error e => .error e
      | .ok cbs1 => .ok (data.setKey "callbacks" (.arr cbs1))
    | some (.obj []) => .ok data
    | some (.str "") => .ok data
    | _ => .error .typeError
  else .ok data

/-- `f"Authentication Failed. {resp.status_code}, {resp.text}."` -/
def authFailedMsg (r : Resp) : String :=
  "Authentication Failed. " ++ toString r.status ++ ", " ++ r.text ++ "."

/-- `ToyotaLoginError("Authentication Failed. Unknown method.")` raised
when the round cap expires without a `tokenId` (lines 67-68). -/
def unknownMethodErr : PyErr :=
  .loginError "Authentication Failed. Unknown method."

/-- The `for _ in range(10)` challenge loop of `_update_token`
(lines 50-68) plus the post-loop `tokenId` check.  `chal i` is the
response to the i-th POST against the authenticate endpoint; `posts`
counts POSTs already performed; `fuel` is the number of loop iterations
left.  Returns the final `data` (or the raised exception) together with
the total number of POSTs performed. -/
def chalLoop (username password : String) (chal : Nat → Resp) :
    Nat → Json → Nat → (Except PyErr Json) × Nat
  | 0, data, posts =>
    (if data.hasKey "tokenId" then .ok data else .error unknownMethodErr, posts)
  | fuel + 1, data, posts =>
    match fillData username password data with
    | .error e => (.error e, posts)
    | .ok _ =>
      let resp := chal posts
      if resp.status ≠ 200 then
        (.error (.loginError (authFailedMsg resp)), posts + 1)
      else if resp.body.hasKey "tokenId" then (.ok resp.body, posts + 1)
      else chalLoop username password chal fuel resp.body (posts + 1)

/-- The whole challenge phase: `data` starts as the empty dict `{}`. -/
def chalRun (username password : String) (chal : Nat → Resp) : (Except PyErr Json) × Nat :=
  chalLoop username password chal 10 (.obj []) 0

/-- Hexadecimal digit value, `none` for a non-hex character. -/
def hexVal (c : Char) : Option Nat :=
  if c.isDigit then some (c.toNat - 48)
  else if 97 ≤ c.toNat ∧ c.toNat ≤ 102 then some (c.toNat - 87)
  else if 65 ≤ c.toNat ∧ c.toNat ≤ 70 then some (c.toNat - 55)
  else none

/-- `urllib.parse.unquote_plus`: `+` becomes a space, `%XX` becomes the
byte it encodes (multi-byte UTF-8 sequences are approximated one byte
per character; no percent-escape occurs in the flows the claims
exercise), malformed escapes pass through verbatim. -/
def unquotePlus : List Char → List Char
  | [] => []
  | '+' :: rest => ' ' :: unquotePlus rest
  | '%' :: a :: b :: rest =>
    match hexVal a, hexVal b with
    | some ha, some hb => Char.ofNat (16 * ha + hb) :: unquotePlus rest
    | _, _ => '%' :: unquotePlus (a :: b :: rest)
  | c :: rest => c :: unquotePlus rest

/-- Split a character list at every occurrence of `c` (the separators
used by the URL parsing below are all single characters). -/
def splitOnChar (c : Char) : List Char → List (List Char)
  | [] => [[]]
  | x :: rest =>
    let r := splitOnChar c rest
    if x = c then [] :: r
    else
      match r with
      | [] => [[x]]
      | h :: t => (x :: h) :: t

/-- Re-join chunks with the separator character. -/
def joinWithChar (c : Char) : List (List Char) → List Char
  | [] => []
  | [h] => h
  | h :: t => h ++ c :: joinWithChar c t

/-- The query component of a URL as `httpx.URL(...).query` yields it:
everything after the first `?` of the part that precedes any fragment. -/
def urlQuery (s : String) : String :=
  let beforeFrag := ((splitOnChar '#' s.toList).headD s.toList)
  match splitOnChar '?' beforeFrag with
  | [] => ""
  | [_] => ""
  | _ :: rest => (joinWithChar '?' rest).asString

/-- `urllib.parse.parse_qsl` with default arguments: split on `&`, skip
empty chunks, skip chunks without `=` and chunks with an empty value
(keep_blank_values is false), unquote names and values. -/
def parseQsl (q : String) : List (String × String) :=
  (splitOnChar '&' q.toList).filterMap fun nv =>
    match splitOnChar '=' nv with
    | [] => none
    | [_] => none
    | n :: vs =>
      let v := joinWithChar '=' vs
      if v.isEmpty then none
      else some ((unquotePlus n).asString, (unquotePlus v).asString)

/-- `urllib.parse.parse_qs(q)[k]`: the list of values collected for key
`k`; the key is present in the parse_qs dict exactly when this list is
non-empty. -/
def qsLookup (q : String) (k : String) : List String :=
  (parseQsl q).filterMap fun p => if p.1 = k then some p.2 else none

/-- `f"Authorization failed. {resp.status_code}, {resp.text}."` -/
def authzFailedMsg (r : Resp) : String :=
  "Authorization failed. " ++ toString r.status ++ ", " ++ r.text ++ "."

/-- The authorise step of `_update_token` (lines 70-78): a non-302
response raises `ToyotaLoginError`; on a 302 the `code` values are read
from the `location` header's query string with
`parse_qs(...)["code"]` — a `KeyError` when the field is absent.  A
missing `location` header makes `httpx.URL(None)` raise `TypeError`. -/
def authStep (ar : Resp) : Except PyErr (List String) :=
  if ar.status ≠ 302 then .error (.loginError (authzFailedMsg ar))
  else
    match ar.location with
    | none => .error .typeError
    | some loc =>
      match qsLookup (urlQuery loc) "code" with
      | [] => .error (.keyError "code")
      | v :: vs => .ok (v :: vs)

/-- `f"Token retrieval failed. {resp.status_code}, {resp.text}."` -/
def tokenFailedMsg (r : Resp) : String :=
  "Token retrieval failed. " ++ toString r.status ++ ", " ++ r.text ++ "."

/-- `f"Token retrieval failed. Missing Tokens. {resp.status_code}, {resp.text}."` -/
def missingTokensMsg (r : Resp) : String :=
  "Token retrieval failed. Missing Tokens. " ++ toString r.status ++ ", " ++ r.text ++ "."

/-- The presence check of lines 97-102: all four of `access_token`,
`id_token`, `refresh_token`, `expires_in` occur in the response body. -/
def allFourTokens (body : Json) : Bool :=
  body.hasKey "access_token" && body.hasKey "id_token" &&
    body.hasKey "refresh_token" && body.hasKey "expires_in"

def Controller.setToken (c : Controller) (t : Option Json) : Controller :=
  ⟨c.username, c.password, t, c.tokenExpiration, c.refreshToken, c.uuid, c.timeout⟩

def Controller.setExpiration (c : Controller) (e : Option Int) : Controller :=
  ⟨c.username, c.password, c.token, e, c.refreshToken, c.uuid, c.timeout⟩

def Controller.setRefresh (c : Controller) (r : Option Json) : Controller :=
  ⟨c.username, c.password, c.token, c.tokenExpiration, r, c.uuid, c.timeout⟩

def Controller.setUuid (c : Controller) (u : Option Json) : Controller :=
  ⟨c.username, c.password, c.token, c.tokenExpiration, c.refreshToken, u, c.timeout⟩

/-- The token-retrieval tail of `_update_token` (lines 92-113) applied to
the token-endpoint response `tr`.  `dj` models `jwt.decode(...)` on the
`id_token` value (signature verification disabled, so it either yields
the payload claims or raises a decode error).  Returns the raised
exception (if any) together with the instance state *after* the call:
the source assigns `_token` and `_refresh_token` before extracting the
uuid claim and assigns `_token_expiration` last, so a failure inside the
uuid extraction leaves the tokens stored with the old expiry. -/
def tokenExchange (dj : Json → Except PyErr Json) (tr : Resp) (c : Controller) (now : Int) :
    Option PyErr × Controller :=
  if tr.status ≠ 200 then (some (.loginError (tokenFailedMsg tr)), c)
  else if !allFourTokens tr.body then (some (.loginError (missingTokensMsg tr)), c)
  else
    let c1 := c.setToken (tr.body.jGet "access_token")
    let c2 := c1.setRefresh (tr.body.jGet "refresh_token")
    match dj ((tr.body.jGet "id_token").getD .null) with
    | .error e => (some e, c2)
    | .ok payload =>
      match payload.pyGet "uuid" with
      | .error e => (some e, c2)
      | .ok uj =>
        let c3 := c2.setUuid (some uj)
        match (tr.body.jGet "expires_in").getD .null with
        | .num n => (none, c3.setExpiration (some (now + n)))
        | _ => (some .typeError, c3)

/-- The network environment of one login attempt: responses to the
authenticate POSTs (indexed by POST count), to the authorise GET and to
the token POST, plus the behaviour of the `jwt` payload decoder. -/
structure LoginEnv where
  chal : Nat → Resp
  authResp : Resp
  tokenResp : Resp
  decodeJwt : Json → Except PyErr Json

/-- `Controller._update_token` (lines 38-113): challenge loop, authorise
step, token exchange.  Returns the raised exception (if any), the
instance state after the call, and the number of POSTs made against the
authenticate endpoint. -/
def updateToken (env : LoginEnv) (c : Controller) (now : Int) :
    Option PyErr × Controller × Nat :=
  let lr := chalRun c.username c.password env.chal
  match lr.1 with
  | .error e => (some e, c, lr.2)
  | .ok _ =>
    match authStep env.authResp with
    | .error e => (some e, c, lr.2)
    | .ok _ =>
      let te := tokenExchange env.decodeJwt env.tokenResp c now
      (te.1, te.2, lr.2)

/-- `Controller.login` (lines 34-36) is exactly `_update_token`. -/
def login (env : LoginEnv) (c : Controller) (now : Int) : Option PyErr × Controller × Nat :=
  updateToken env c now

/-- The fixed session-derived and client-identity headers installed by
`headers.update({...})` in `request_raw` (lines 140-150), in source
order. -/
def sessionHeaders (c : Controller) : List (String × Json) :=
  [("x-api-key", .str "tTZipv6liF74PwMfk9Ed68AQ0bISswwf3iHQdqcF"),
   ("x-guid", (c.uuid).getD .null),
   ("guid", (c.uuid).getD .null),
   ("authorization", .str ("Bearer " ++ pyStrOpt c.token)),
   ("x-channel", .str "ONEAPP"),
   ("x-brand", .str "T"),
   ("user-agent", .str "okhttp/4.10.0")]

/-- Python `d.update(new)`: assign every entry of `new` into `d` in
order, each assignment replacing an existing key in place or appending
a fresh one. -/
def dictUpdate (d new : List (String × Json)) : List (String × Json) :=
  new.foldl (fun acc kv => setAssoc acc kv.1 kv.2) d

/-- Lookup in the association-list model of a Python dict. -/
def dictLookup (d : List (String × Json)) (k : String) : Option Json :=
  d.lookup k

/-- The header construction of `request_raw` (lines 138-153): merge the
session headers into the caller-supplied dict, then add `vin` when a
vehicle identifier was passed. -/
def mergeHeaders (c : Controller) (vin : Option String) (h : List (String × Json)) :
    List (String × Json) :=
  let h1 := dictUpdate h (sessionHeaders c)
  match vin with
  | some v => dictUpdate h1 [("vin", .str v)]
  | none => h1

/-- `f"Request Failed.  {response.status_code}, {response.text}."`
(two spaces after the dot, as in the source). -/
def requestFailedMsg (r : Resp) : String :=
  "Request Failed.  " ++ toString r.status ++ ", " ++ r.text ++ "."

/-- Observable outcome of one `request_raw` call: the returned response
or raised exception, the instance state afterwards, the number of
authenticate-endpoint POSTs, and the number of authenticated API
requests issued. -/
structure ReqResult where
  outcome : Except PyErr Resp
  state : Controller
  chalPosts : Nat
  apiCalls : Nat

/-- `Controller.request_raw` (lines 122-171): reject methods outside the
allow-list, re-login when `_is_token_valid()` is false, build headers,
issue the request (`apiResp` is the upstream response), return it on
200/202 and raise `ToyotaApiError` otherwise.  `body` and `params` are
forwarded to the transport and do not influence the control flow. -/
def requestRaw (env : LoginEnv) (apiResp : Resp) (c : Controller) (now : Int)
    (method : String) (endpoint : String) (vin : Option String)
    (body params : Option Json) (headers : Option (List (String × Json))) : ReqResult :=
  let _ := endpoint
  let _ := body
  let _ := params
  if !(method = "GET" || method = "POST" || method = "PUT" || method = "DELETE") then
    ⟨.error (.internalError "Invalid request method provided"), c, 0, 0⟩
  else
    let step :=
      if !isTokenValid c now then
        let u := updateToken env c now
        (u.1, u.2.1, u.2.2)
      else ((none : Option PyErr), c, 0)
    match step.1 with
    | some e => ⟨.error e, step.2.1, step.2.2, 0⟩
    | none =>
      let _ := mergeHeaders step.2.1 vin (headers.getD [])
      if apiResp.status = 200 || apiResp.status = 202 then
        ⟨.ok apiResp, step.2.1, step.2.2, 1⟩
      else
        ⟨.error (.apiError (requestFailedMsg apiResp)), step.2.1, step.2.2, 1⟩

/-- Outcome of one `request_json` call. -/
structure ReqJsonResult where
  outcome : Except PyErr Json
  state : Controller
  chalPosts : Nat
  apiCalls : Nat

/-- `Controller.request_json` (lines 173-205): `request_raw` followed by
`response.json()`. -/
def requestJson (env : LoginEnv) (apiResp : Resp) (c : Controller) (now : Int)
    (method : String) (endpoint : String) (vin : Option String)
    (body params : Option Json) (headers : Option (List (String × Json))) : ReqJsonResult :=
  let r := requestRaw env apiResp c now method endpoint vin body params headers
  match r.outcome with
  | .error e => ⟨.error e, r.state, r.chalPosts, r.apiCalls⟩
  | .ok resp => ⟨.ok resp.body, r.state, r.chalPosts, r.apiCalls⟩

/-- The spec's Session State invariant: `accessToken` and `expiresAt`
are both set or both unset. -/
def sessionInv (c : Controller) : Bool :=
  c.token.isSome == c.tokenExpiration.isSome

/-- A heap of Python dict objects, addressed by index: used to state
what `headers.update(...)` does to the *caller's* object.  `none` in
`headersStep` models the caller passing `headers=None`. -/
abbrev DictStore : Type := List (List (String × Json))

/-- Lines 138-153 of `request_raw` at the object level: with
`headers=None` a fresh empty dict is allocated and merged into;
otherwise `headers.update({...})` mutates the caller's dict in place —
the store cell at the caller's address is overwritten, no copy is
made.  Returns the new store and the address of the dict the request
goes on to use. -/
def headersStep (store : DictStore) (href : Option Nat) (c : Controller)
    (vin : Option String) : DictStore × Nat :=
  match href with
  | none => (store ++ [mergeHeaders c vin []], store.length)
  | some i => (store.set i (mergeHeaders c vin ((store.get? i).getD [])), i)

/-- Program counter of one task running `request_raw` on a shared
controller whose session is invalid.  Lines 135-136 run synchronously
from the `_is_token_valid()` check up to the first `await` inside
`_update_token` (the first challenge POST); the whole remainder of the
login is collapsed into one further step that stores the token.
`start`: about to run the validity check; `loggingIn`: suspended at an
`await` inside `_update_token`; `finished`: past the login section. -/
inductive TaskPC where
  | start
  | loggingIn
  | finished

/-- Shared state of two concurrent `request_raw` calls on one controller
instance: whether `_is_token_valid()` currently answers true, the two
program counters, and how many login sequences have been started. -/
structure ConcSys where
  valid : Bool
  pcA : TaskPC
  pcB : TaskPC
  logins : Nat

/-- One cooperative scheduler step: run the chosen task (`true` = A)
until its next suspension point.  At `start` the task checks
`_is_token_valid()` and, when invalid, enters `_update_token`
(counting one login sequence) before suspending at the first HTTP
await; at `loggingIn` the login completes, storing the token.  There is
no lock anywhere in `request_raw` or `_update_token`. -/
def concStep (s : ConcSys) (pickA : Bool) : ConcSys :=
  let pc := if pickA then s.pcA else s.pcB
  let put := fun (s1 : ConcSys) (pc1 : TaskPC) =>
    if pickA then ⟨s1.valid, pc1, s1.pcB, s1.logins⟩
    else (⟨s1.valid, s1.pcA, pc1, s1.logins⟩ : ConcSys)
  match pc with
  | .start =>
    if s.valid then put s .finished
    else put ⟨s.valid, s.pcA, s.pcB, s.logins + 1⟩ .loggingIn
  | .loggingIn => put ⟨true, s.pcA, s.pcB, s.logins⟩ .finished
  | .finished => s

/-- Run a schedule (list of task picks) from a system state. -/
def concRun (sched : List Bool) (s : ConcSys) : ConcSys :=
  sched.foldl concStep s

/-- Both tasks start at the validity check with an invalid session and
no login performed yet. -/
def concInit : ConcSys :=
  ⟨false, .start, .start, 0⟩

/-- Has a task reached the end of the login section? -/
def TaskPC.isFinished : TaskPC → Bool
  | .finished => true
  | _ => false

/-- Is an `Except` outcome a raised `ToyotaLoginError`? -/
def isLoginErr {α : Type} : Except PyErr α → Bool
  | .error (.loginError _) => true
  | _ => false

/-- Is an `Except` outcome a success? -/
def exOk {α : Type} : Except PyErr α → Bool
  | .ok _ => true
  | .error _ => false

/-- The callback type tag, read non-destructively: `cb.get("type")`. -/
def cbType (cb : Json) : Option Json :=
  cb.jGet "type"

/-- The declared purpose of a prompt: `cb["output"][0]["value"]`, read
non-destructively. -/
def outputValue (cb : Json) : Option Json :=
  (do
    let out ← cb.pyGet "output"
    let o0 ← out.pyIdx 0
    o0.pyGet "value" : Except PyErr Json).toOption

/-- The filled input slot of a prompt: `cb["input"][0]["value"]`, read
non-destructively. -/
def inputValue (cb : Json) : Option Json :=
  (do
    let inp ← cb.pyGet "input"
    let i0 ← inp.pyIdx 0
    i0.pyGet "value" : Except PyErr Json).toOption

/-- Relation between a callback prompt sent by the server and the prompt
the resolver resubmits: the username prompt's input slot now holds the
stored username, every password prompt's input slot holds the stored
password, and a prompt of any other type is returned unmodified. -/
def cbRel (u p : String) (cb cb1 : Json) : Prop :=
  ((cbType cb = some (.str "NameCallback") ∧ outputValue cb = some (.str "User Name")) →
    inputValue cb1 = some (.str u)) ∧
  (cbType cb = some (.str "PasswordCallback") → inputValue cb1 = some (.str p)) ∧
  (∀ t, cbType cb = some (.str t) → t ≠ "NameCallback" → t ≠ "PasswordCallback" → cb1 = cb)

/-- The token-exchange environment behaves benignly: when the session
token response is well formed (status 200 with all four fields), the
identity token's payload decodes and carries a `uuid` claim, and
`expires_in` is numeric.  Exactly the situations in which the source's
assignment block (lines 105-113) runs to completion. -/
def ExchangeSafe (dj : Json → Except PyErr Json) (tr : Resp) : Prop :=
  tr.status = 200 → allFourTokens tr.body = true →
    (∃ payload uj, dj ((tr.body.jGet "id_token").getD .null) = .ok payload ∧
        payload.pyGet "uuid" = .ok uj) ∧
    (∃ n, tr.body.jGet "expires_in" = some (.num n))

/-- A challenge environment that never returns a `tokenId`. -/
def envNoToken : LoginEnv :=
  ⟨fun _ => ⟨200, "", .obj [("authId", .str "x")], none⟩,
   ⟨302, "", .null, some "r?code=abc"⟩,
   ⟨200, "", .obj [], none⟩,
   fun _ => .ok (.obj [])⟩

/-- A token-endpoint body carrying all four required fields. -/
def happyTokenBody : Json :=
  .obj [("access_token", .str "at1"), ("id_token", .str "idt"),
        ("refresh_token", .str "rt1"), ("expires_in", .num 3600)]

/-- An environment in which the full login succeeds on the first round. -/
def envHappy : LoginEnv :=
  ⟨fun _ => ⟨200, "", .obj [("tokenId", .str "tid")], none⟩,
   ⟨302, "", .null, some "r?code=abc"⟩,
   ⟨200, "", happyTokenBody, none⟩,
   fun _ => .ok (.obj [("uuid", .str "uuid1")])⟩

/-- Like `envHappy` but the decoded identity-token payload lacks the
`uuid` claim, so line 107's subscript raises `KeyError("uuid")` after
the tokens were already stored. -/
def envNoUuid : LoginEnv :=
  ⟨fun _ => ⟨200, "", .obj [("tokenId", .str "tid")], none⟩,
   ⟨302, "", .null, some "r?code=abc"⟩,
   ⟨200, "", happyTokenBody, none⟩,
   fun _ => .ok (.obj [])⟩

/-- A challenge environment that yields the `tokenId` on the third
response (two plain callback rounds first). -/
def envEarly : LoginEnv :=
  ⟨fun i => if i < 2 then ⟨200, "", .obj [("authId", .str "x")], none⟩
            else ⟨200, "", .obj [("tokenId", .str "tid")], none⟩,
   ⟨302, "", .null, some "r?code=abc"⟩,
   ⟨200, "", happyTokenBody, none⟩,
   fun _ => .ok (.obj [("uuid", .str "uuid1")])⟩

/-- A 302 redirect whose Location query string has no `code` field. -/
def redirectNoCode : Resp :=
  ⟨302, "", .null, some "https://x/cb?foo=1"⟩

/-- A well-formed username prompt as the authenticate endpoint sends it. -/
def nameCb : Json :=
  .obj [("type", .str "NameCallback"),
        ("output", .arr [.obj [("value", .str "User Name")]]),
        ("input", .arr [.obj [("name", .str "IDToken1"), ("value", .str "")]])]

/-- A well-formed password prompt. -/
def passCb : Json :=
  .obj [("type", .str "PasswordCallback"),
        ("input", .arr [.obj [("value", .str "")]])]

/-- A prompt of an unrecognised type. -/
def otherCb : Json :=
  .obj [("type", .str "HiddenValueCallback"),
        ("input", .arr [.obj [("value", .str "x")]])]

/-- Claim C1: the claim says `_is_token_valid` returns true iff a token
is stored and the expiry is in the future.  The code's condition is
inverted (`if self._token or ...: return False`): on a state with a
stored token and a future expiry it returns `false`, and on a state with
no stored token and a future expiry it returns `true` — in both cases
the opposite of the specified predicate `sessionValidSpec`. -/
theorem controller_is_token_valid_inverted :
    isTokenValid liveTokenState 0 = false ∧ sessionValidSpec liveTokenState 0 = true ∧
    isTokenValid noTokenState 0 = true ∧ sessionValidSpec noTokenState 0 = false :=
  ⟨rfl, rfl, rfl, rfl⟩

/-- Claim C2: a method outside the GET/POST/PUT/DELETE allow-list makes
`request_raw` (and therefore `request_json`) raise
`ToyotaInternalError("Invalid request method provided")` with the
session state unchanged, no authenticate-endpoint POST and no
authenticated API request — the check sits before the validity check
and the login. -/
theorem request_invalid_method_rejected
    (env : LoginEnv) (apiResp : Resp) (c : Controller) (now : Int)
    (method endpoint : String) (vin : Option String) (body params : Option Json)
    (headers : Option (List (String × Json)))
    (h : ¬(method = "GET" ∨ method = "POST" ∨ method = "PUT" ∨ method = "DELETE")) :
    requestRaw env apiResp c now method endpoint vin body params headers =
      ⟨.error (.internalError "Invalid request method provided"), c, 0, 0⟩ ∧
    requestJson env apiResp c now method endpoint vin body params headers =
      ⟨.error (.internalError "Invalid request method provided"), c, 0, 0⟩ := by
  have h1 : ¬(method = "GET") := fun e => h (Or.inl e)
  have h2 : ¬(method = "POST") := fun e => h (Or.inr (Or.inl e))
  have h3 : ¬(method = "PUT") := fun e => h (Or.inr (Or.inr (Or.inl e)))
  have h4 : ¬(method = "DELETE") := fun e => h (Or.inr (Or.inr (Or.inr e)))
  constructor
  · simp [requestRaw, h1, h2, h3, h4]
  · simp [requestJson, requestRaw, h1, h2, h3, h4]

/-- Claim C2 witness: `"PATCH"` is rejected on a freshly constructed
controller without touching the session or the network. -/
theorem request_invalid_method_rejected_witness :
    requestRaw envHappy ⟨200, "", .obj [], none⟩ (initController "u" "p" 30) 0
        "PATCH" "/x" none none none none =
      ⟨.error (.internalError "Invalid request method provided"), initController "u" "p" 30, 0, 0⟩ ∧
    requestJson envHappy ⟨200, "", .obj [], none⟩ (initController "u" "p" 30) 0
        "PATCH" "/x" none none none none =
      ⟨.error (.internalError "Invalid request method provided"), initController "u" "p" 30, 0, 0⟩ :=
  request_invalid_method_rejected envHappy ⟨200, "", .obj [], none⟩
    (initController "u" "p" 30) 0 "PATCH" "/x" none none none none (by decide)

/-- The challenge loop never performs more POSTs than it has iterations
left plus those already performed. -/
theorem chalLoop_posts_le (u p : String) (chal : Nat → Resp) :
    ∀ fuel data posts, (chalLoop u p chal fuel data posts).2 ≤ posts + fuel := by
  intro fuel
  induction fuel with
  | zero => intro data posts; simp [chalLoop]
  | succ n ih =>
    intro data posts
    simp only [chalLoop]
    cases hf : fillData u p data with
    | error e => simp
    | ok d =>
      simp only
      by_cases hs : (chal posts).status ≠ 200
      · simp [hs]
      · simp [hs]
        by_cases ht : (chal posts).body.hasKey "tokenId" = true
        · simp [ht]
        · simp [ht]
          have := ih (chal posts).body (posts + 1)
          omega

/-- If every remaining response is OK, fillable and without a `tokenId`,
the loop exhausts its fuel and raises the unknown-method error after
exactly the round cap of POSTs. -/
theorem chalLoop_never (u p : String) (chal : Nat → Resp) :
    ∀ fuel data posts, posts + fuel = 10 →
      data.hasKey "tokenId" = false →
      (∀ i, posts ≤ i → i < 10 → (chal i).status = 200 ∧
        (chal i).body.hasKey "tokenId" = false ∧ exOk (fillData u p (chal i).body) = true) →
      exOk (fillData u p data) = true →
      chalLoop u p chal fuel data posts = (.error unknownMethodErr, 10) := by
  intro fuel
  induction fuel with
  | zero =>
    intro data posts hn ht _ _
    simp only [chalLoop, ht]
    simp; omega
  | succ n ih =>
    intro data posts hn ht hresp hfill
    simp only [chalLoop]
    cases hf : fillData u p data with
    | error e => rw [hf] at hfill; simp [exOk] at hfill
    | ok d =>
      simp only
      obtain ⟨hs, htk, hfk⟩ := hresp posts (Nat.le_refl _) (by omega)
      simp [hs, htk]
      exact ih (chal posts).body (posts + 1) (by omega) htk
        (fun i hi1 hi2 => hresp i (by omega) hi2) hfk

/-- As soon as response `k` carries a `tokenId` (all earlier responses
OK, fillable and without one), the loop stops with `k + 1` POSTs and
hands that body on. -/
theorem chalLoop_early (u p : String) (chal : Nat → Resp) :
    ∀ fuel data posts k, posts + fuel = 10 → posts ≤ k → k < 10 →
      data.hasKey "tokenId" = false →
      exOk (fillData u p data) = true →
      (∀ i, posts ≤ i → i < k → (chal i).status = 200 ∧
        (chal i).body.hasKey "tokenId" = false ∧ exOk (fillData u p (chal i).body) = true) →
      (chal k).status = 200 → (chal k).body.hasKey "tokenId" = true →
      chalLoop u p chal fuel data posts = (.ok (chal k).body, k + 1) := by
  intro fuel
  induction fuel with
  | zero => intro data posts k hn hk1 hk2 _ _ _ _ _; omega
  | succ n ih =>
    intro data posts k hn hk1 hk2 ht hfill hresp hks hkt
    simp only [chalLoop]
    cases hf : fillData u p data with
    | error e => rw [hf] at hfill; simp [exOk] at hfill
    | ok d =>
      simp only
      rcases Nat.eq_or_lt_of_le hk1 with heq | hlt
      · subst heq
        simp [hks, hkt]
      · obtain ⟨hs, htk, hfk⟩ := hresp posts (Nat.le_refl _) hlt
        simp [hs, htk]
        exact ih (chal posts).body (posts + 1) k (by omega) (by omega) hk2 htk hfk
          (fun i hi1 hi2 => hresp i (by omega) hi2) hks hkt

/-- Claim C3: the challenge loop performs at most 10 POSTs; when every
response is OK and fillable but never carries a `tokenId`, it performs
exactly 10 POSTs and raises `ToyotaLoginError("Authentication Failed.
Unknown method.")` (the source's wording of the unknown-challenge-method
failure); and as soon as response `k` carries a `tokenId` it stops early
after `k + 1` POSTs. -/
theorem challenge_loop_round_cap (u p : String) (chal : Nat → Resp) :
    (chalRun u p chal).2 ≤ 10 ∧
    ((∀ i, i < 10 → (chal i).status = 200 ∧ (chal i).body.hasKey "tokenId" = false ∧
        exOk (fillData u p (chal i).body) = true) →
      chalRun u p chal = (.error unknownMethodErr, 10)) ∧
    (∀ k, k < 10 → (chal k).status = 200 → (chal k).body.hasKey "tokenId" = true →
      (∀ i, i < k → (chal i).status = 200 ∧ (chal i).body.hasKey "tokenId" = false ∧
        exOk (fillData u p (chal i).body) = true) →
      chalRun u p chal = (.ok (chal k).body, k + 1)) := by
  refine ⟨?_, ?_, ?_⟩
  · have := chalLoop_posts_le u p chal 10 (.obj []) 0
    simpa [chalRun] using this
  · intro hresp
    exact chalLoop_never u p chal 10 (.obj []) 0 rfl rfl
      (fun i _ hi2 => hresp i hi2) rfl
  · intro k hk hks hkt hresp
    exact chalLoop_early u p chal 10 (.obj []) 0 k rfl (Nat.zero_le _) hk rfl rfl
      (fun i _ hi2 => hresp i hi2) hks hkt

/-- Claim C3 witness: an environment that never returns a `tokenId`
yields exactly 10 POSTs and the unknown-method failure; an environment
whose third response carries the `tokenId` stops after 3 POSTs. -/
theorem challenge_loop_round_cap_witness :
    chalRun "u" "p" envNoToken.chal = (.error unknownMethodErr, 10) ∧
    chalRun "u" "p" envEarly.chal = (.ok (envEarly.chal 2).body, 3) :=
  ⟨(challenge_loop_round_cap "u" "p" envNoToken.chal).2.1 (by decide),
   (challenge_loop_round_cap "u" "p" envEarly.chal).2.2 2 (by decide) (by decide)
     (by decide) (by decide)⟩

/-- `d[k]` succeeds with `v` exactly when the key maps to `v`. -/
theorem pyGet_ok_iff (j : Json) (k : String) (v : Json) :
    j.pyGet k = .ok v ↔ j.jGet k = some v := by
  cases j <;> simp [Json.pyGet, Json.jGet]
  case obj kvs => cases kvs.lookup k <;> simp

/-- A failed `d[k]` raises only `KeyError` or `TypeError`. -/
theorem pyGet_err (j : Json) (k : String) (e : PyErr) (h : j.pyGet k = .error e) :
    e = .keyError k ∨ e = .typeError := by
  cases j with
  | obj kvs =>
    simp only [Json.pyGet] at h
    cases hk : kvs.lookup k <;> rw [hk] at h
    · simp at h
      exact Or.inl h.symm
    · simp at h
  | null =>
    simp [Json.pyGet] at h
    exact Or.inr h.symm
  | bool b =>
    simp [Json.pyGet] at h
    exact Or.inr h.symm
  | num n =>
    simp [Json.pyGet] at h
    exact Or.inr h.symm
  | str s =>
    simp [Json.pyGet] at h
    exact Or.inr h.symm
  | arr xs =>
    simp [Json.pyGet] at h
    exact Or.inr h.symm

/-- Claim C4: with a 200 token-endpoint response, the exchange raises
`ToyotaLoginError("Token retrieval failed. Missing Tokens. ...")` iff at
least one of `access_token`, `id_token`, `refresh_token`, `expires_in`
is absent; and when all four are present, the identity token decodes to
a payload carrying a `uuid` claim and `expires_in` is numeric, the
exchange succeeds, storing the access and refresh tokens, the uuid, and
an expiry of `now + expires_in`. -/
theorem token_exchange_missing_tokens
    (dj : Json → Except PyErr Json) (tr : Resp) (c : Controller) (now : Int)
    (hst : tr.status = 200)
    (hdj : ∀ j e, dj j = .error e → ∃ m, e = .jwtError m) :
    ((tokenExchange dj tr c now).1 = some (.loginError (missingTokensMsg tr)) ↔
      allFourTokens tr.body = false) ∧
    (∀ payload uj n, allFourTokens tr.body = true →
      dj ((tr.body.jGet "id_token").getD .null) = .ok payload →
      payload.pyGet "uuid" = .ok uj →
      tr.body.jGet "expires_in" = some (.num n) →
      (tokenExchange dj tr c now).1 = none ∧
      (tokenExchange dj tr c now).2.token = tr.body.jGet "access_token" ∧
      (tokenExchange dj tr c now).2.refreshToken = tr.body.jGet "refresh_token" ∧
      (tokenExchange dj tr c now).2.uuid = some uj ∧
      (tokenExchange dj tr c now).2.tokenExpiration = some (now + n)) := by
  constructor
  · by_cases ha : allFourTokens tr.body = true
    · simp only [tokenExchange, hst]
      simp only [ne_eq, not_true_eq_false, if_false, ha, Bool.not_true, Bool.false_eq_true,
        if_false]
      constructor
      · intro h
        exfalso
        cases hd : dj ((tr.body.jGet "id_token").getD .null) with
        | error e =>
          rw [hd] at h
          simp at h
          obtain ⟨m, hm⟩ := hdj _ _ hd
          rw [hm] at h
          exact PyErr.noConfusion h
        | ok payload =>
          rw [hd] at h
          simp at h
          cases hu : payload.pyGet "uuid" with
          | error e =>
            rw [hu] at h
            simp at h
            rcases pyGet_err _ _ _ hu with he | he <;> rw [he] at h <;>
              exact PyErr.noConfusion h
          | ok uj =>
            rw [hu] at h
            simp at h
            cases hx : (tr.body.jGet "expires_in").getD .null <;> rw [hx] at h <;> simp at h
      · intro h
        simp at h
    · have ha2 : allFourTokens tr.body = false := by
        cases h2 : allFourTokens tr.body
        · rfl
        · exact absurd h2 ha
      simp [tokenExchange, hst, ha2]
  · intro payload uj n ha hd hu hx
    simp only [tokenExchange, hst, ne_eq, not_true_eq_false, if_false, ha, Bool.not_true,
      Bool.false_eq_true, if_false]
    simp only [hd, hu, hx, Option.getD_some]
    simp [Controller.setToken, Controller.setRefresh, Controller.setUuid,
      Controller.setExpiration]

/-- Claim C4 witness: a response missing `refresh_token` yields the
missing-tokens failure; the full `happyTokenBody` response succeeds,
storing the tokens and `now + 3600` as expiry (at `now = 5`). -/
theorem token_exchange_missing_tokens_witness :
    (tokenExchange envHappy.decodeJwt
        ⟨200, "", .obj [("access_token", .str "a"), ("id_token", .str "i"),
          ("expires_in", .num 10)], none⟩ (initController "u" "p" 30) 0).1 =
      some (.loginError (missingTokensMsg ⟨200, "", .obj [("access_token", .str "a"),
        ("id_token", .str "i"), ("expires_in", .num 10)], none⟩)) ∧
    (tokenExchange envHappy.decodeJwt ⟨200, "", happyTokenBody, none⟩
        (initController "u" "p" 30) 5).1 = none ∧
    (tokenExchange envHappy.decodeJwt ⟨200, "", happyTokenBody, none⟩
        (initController "u" "p" 30) 5).2.token = some (.str "at1") ∧
    (tokenExchange envHappy.decodeJwt ⟨200, "", happyTokenBody, none⟩
        (initController "u" "p" 30) 5).2.refreshToken = some (.str "rt1") ∧
    (tokenExchange envHappy.decodeJwt ⟨200, "", happyTokenBody, none⟩
        (initController "u" "p" 30) 5).2.tokenExpiration = some 3605 := by
  have hdj : ∀ j e, envHappy.decodeJwt j = Except.error e → ∃ m, e = PyErr.jwtError m := by
    intro j e h
    simp [envHappy] at h
  refine ⟨?_, ?_, ?_, ?_, ?_⟩
  · exact (token_exchange_missing_tokens envHappy.decodeJwt
      ⟨200, "", .obj [("access_token", .str "a"), ("id_token", .str "i"),
        ("expires_in", .num 10)], none⟩ (initController "u" "p" 30) 0 rfl hdj).1.mpr rfl
  · exact ((token_exchange_missing_tokens envHappy.decodeJwt ⟨200, "", happyTokenBody, none⟩
      (initController "u" "p" 30) 5 rfl hdj).2 (.obj [("uuid", .str "uuid1")])
      (.str "uuid1") 3600 rfl rfl rfl rfl).1
  · exact ((token_exchange_missing_tokens envHappy.decodeJwt ⟨200, "", happyTokenBody, none⟩
      (initController "u" "p" 30) 5 rfl hdj).2 (.obj [("uuid", .str "uuid1")])
      (.str "uuid1") 3600 rfl rfl rfl rfl).2.1
  · exact ((token_exchange_missing_tokens envHappy.decodeJwt ⟨200, "", happyTokenBody, none⟩
      (initController "u" "p" 30) 5 rfl hdj).2 (.obj [("uuid", .str "uuid1")])
      (.str "uuid1") 3600 rfl rfl rfl rfl).2.2.1
  · exact ((token_exchange_missing_tokens envHappy.decodeJwt ⟨200, "", happyTokenBody, none⟩
      (initController "u" "p" 30) 5 rfl hdj).2 (.obj [("uuid", .str "uuid1")])
      (.str "uuid1") 3600 rfl rfl rfl rfl).2.2.2.2

/-- Claim C5: once `request_raw` issues the authenticated call (here:
with a method on the allow-list and a session the validity check
accepts), an upstream status of 200 or 202 returns the raw response,
and any other status raises `ToyotaApiError` whose message carries the
status code and the response body text unchanged; exactly one API
request is issued either way — the pipeline never retries. -/
theorem request_status_mapping
    (env : LoginEnv) (apiResp : Resp) (c : Controller) (now : Int)
    (method endpoint : String) (vin : Option String) (body params : Option Json)
    (headers : Option (List (String × Json)))
    (hm : method = "GET" ∨ method = "POST" ∨ method = "PUT" ∨ method = "DELETE")
    (hv : isTokenValid c now = true) :
    ((apiResp.status = 200 ∨ apiResp.status = 202) →
      requestRaw env apiResp c now method endpoint vin body params headers =
        ⟨.ok apiResp, c, 0, 1⟩) ∧
    (apiResp.status ≠ 200 → apiResp.status ≠ 202 →
      requestRaw env apiResp c now method endpoint vin body params headers =
        ⟨.error (.apiError ("Request Failed.  " ++ toString apiResp.status ++ ", " ++
          apiResp.text ++ ".")), c, 0, 1⟩) := by
  constructor
  · intro hst
    rcases hm with h | h | h | h <;> subst h <;>
      rcases hst with h2 | h2 <;>
        simp [requestRaw, hv, h2, requestFailedMsg]
  · intro h200 h202
    rcases hm with h | h | h | h <;> subst h <;>
      simp [requestRaw, hv, h200, h202, requestFailedMsg]

/-- Claim C5 witness: with the (code-)valid session `noTokenState`, a
200 response is returned as-is and a 500 response with body text
`"boom"` raises `ToyotaApiError("Request Failed.  500, boom.")`, each
issuing exactly one API request. -/
theorem request_status_mapping_witness :
    requestRaw envHappy ⟨200, "", .obj [], none⟩ noTokenState 0 "GET" "/v1/x"
        none none none none = ⟨.ok ⟨200, "", .obj [], none⟩, noTokenState, 0, 1⟩ ∧
    requestRaw envHappy ⟨500, "boom", .obj [], none⟩ noTokenState 0 "GET" "/v1/x"
        none none none none =
      ⟨.error (.apiError "Request Failed.  500, boom."), noTokenState, 0, 1⟩ :=
  ⟨(request_status_mapping envHappy ⟨200, "", .obj [], none⟩ noTokenState 0 "GET" "/v1/x"
      none none none none (Or.inl rfl) rfl).1 (Or.inl rfl),
   (request_status_mapping envHappy ⟨500, "boom", .obj [], none⟩ noTokenState 0 "GET" "/v1/x"
      none none none none (Or.inl rfl) rfl).2 (by decide) (by decide)⟩

/-- Claim C6 counterexample: a 302 redirect whose Location query string
has no `code` field makes line 78's `parse_qs(...)["code"]` raise a bare
Python `KeyError("code")`, not the `ToyotaLoginError` the claim
announces for every non-code outcome. -/
theorem authorize_missing_code_not_auth_error :
    authStep redirectNoCode = .error (.keyError "code") ∧
    isLoginErr (authStep redirectNoCode) = false :=
  ⟨rfl, rfl⟩

/-- Claim C6 (amended): a non-302 outcome of the authorise request
raises `ToyotaLoginError`; a 302 redirect whose Location query lacks
the `code` field fails with the untyped `KeyError("code")` (not an
`AuthenticationError`); the authorization code values are extracted
exactly from a redirect that carries the field. -/
theorem authorize_step_outcomes (ar : Resp) :
    (ar.status ≠ 302 → authStep ar = .error (.loginError (authzFailedMsg ar))) ∧
    (∀ loc, ar.status = 302 → ar.location = some loc →
      qsLookup (urlQuery loc) "code" = [] → authStep ar = .error (.keyError "code")) ∧
    (∀ loc v vs, ar.status = 302 → ar.location = some loc →
      qsLookup (urlQuery loc) "code" = v :: vs → authStep ar = .ok (v :: vs)) := by
  refine ⟨?_, ?_, ?_⟩
  · intro h
    simp [authStep, h]
  · intro loc h hl hq
    simp [authStep, h, hl, hq]
  · intro loc v vs h hl hq
    simp [authStep, h, hl, hq]

/-- Claim C6 witness: a 403 response raises the authorise
`ToyotaLoginError`; `redirectNoCode` hits the `KeyError`; a redirect to
`...?code=abc` extracts `["abc"]`. -/
theorem authorize_step_outcomes_witness :
    authStep ⟨403, "denied", .null, none⟩ =
      .error (.loginError (authzFailedMsg ⟨403, "denied", .null, none⟩)) ∧
    authStep redirectNoCode = .error (.keyError "code") ∧
    authStep ⟨302, "", .null, some "https://x/cb?code=abc"⟩ = .ok ["abc"] :=
  ⟨(authorize_step_outcomes ⟨403, "denied", .null, none⟩).1 (by decide),
   (authorize_step_outcomes redirectNoCode).2.1 "https://x/cb?foo=1" rfl rfl (by decide),
   (authorize_step_outcomes ⟨302, "", .null, some "https://x/cb?code=abc"⟩).2.2
     "https://x/cb?code=abc" "abc" [] rfl rfl (by decide)⟩

/-- Claim C7 counterexample: starting from a fresh controller (where the
invariant holds), a login whose token response is complete but whose
identity token decodes to a payload without a `uuid` claim stores the
access and refresh tokens (lines 105-106), then raises
`KeyError("uuid")` at line 107 before line 113 ever sets the expiry:
the resulting reachable state has `_token` set and `_token_expiration`
unset, violating the both-set-or-both-unset invariant. -/
theorem session_invariant_broken_by_failed_exchange :
    sessionInv (initController "u" "p" 30) = true ∧
    (updateToken envNoUuid (initController "u" "p" 30) 0).1 = some (.keyError "uuid") ∧
    (updateToken envNoUuid (initController "u" "p" 30) 0).2.1.token = some (.str "at1") ∧
    (updateToken envNoUuid (initController "u" "p" 30) 0).2.1.tokenExpiration = none ∧
    sessionInv (updateToken envNoUuid (initController "u" "p" 30) 0).2.1 = false :=
  ⟨rfl, rfl, rfl, rfl, rfl⟩

/-- A completed or early-failing token exchange preserves the
both-set-or-both-unset invariant. -/
theorem tokenExchange_inv (dj : Json → Except PyErr Json) (tr : Resp) (c : Controller)
    (now : Int) (hsafe : ExchangeSafe dj tr) (hc : sessionInv c = true) :
    sessionInv (tokenExchange dj tr c now).2 = true := by
  by_cases h1 : tr.status = 200
  · by_cases h2 : allFourTokens tr.body = true
    · obtain ⟨⟨payload, uj, hd, hu⟩, n, hn⟩ := hsafe h1 h2
      have hat : (tr.body.jGet "access_token").isSome = true := by
        have h3 := h2
        simp [allFourTokens, Json.hasKey] at h3
        exact h3.1.1.1
      simp only [tokenExchange, h1, h2]
      simp only [ne_eq, not_true_eq_false, if_false, Bool.not_true, Bool.false_eq_true,
        if_false]
      simp only [hd, hu, hn, Option.getD_some]
      simp [sessionInv, Controller.setToken, Controller.setRefresh, Controller.setUuid,
        Controller.setExpiration, hat]
    · have h3 : allFourTokens tr.body = false := by
        cases h : allFourTokens tr.body
        · rfl
        · exact absurd h h2
      simp [tokenExchange, h1, h3]
      exact hc
  · simp [tokenExchange, h1]
    exact hc

/-- `_update_token` either leaves the state untouched (challenge or
authorise failure) or runs the token exchange. -/
theorem updateToken_inv (env : LoginEnv) (c : Controller) (now : Int)
    (hsafe : ExchangeSafe env.decodeJwt env.tokenResp) (hc : sessionInv c = true) :
    sessionInv (updateToken env c now).2.1 = true := by
  simp only [updateToken]
  split
  · exact hc
  · split
    · exact hc
    · exact tokenExchange_inv env.decodeJwt env.tokenResp c now hsafe hc

/-- The state after `request_raw` is either the original state or the
state `_update_token` left behind. -/
theorem requestRaw_state (env : LoginEnv) (apiResp : Resp) (c : Controller) (now : Int)
    (method endpoint : String) (vin : Option String) (body params : Option Json)
    (headers : Option (List (String × Json))) :
    (requestRaw env apiResp c now method endpoint vin body params headers).state = c ∨
    (requestRaw env apiResp c now method endpoint vin body params headers).state =
      (updateToken env c now).2.1 := by
  simp only [requestRaw]
  split
  · exact Or.inl rfl
  · by_cases hv : isTokenValid c now = true
    · simp only [hv, Bool.not_true, Bool.false_eq_true, if_false]
      split <;> exact Or.inl rfl
    · have hv2 : isTokenValid c now = false := by
        cases h : isTokenValid c now
        · rfl
        · exact absurd h hv
      simp only [hv2, Bool.not_false, if_true]
      split <;> first | exact Or.inr rfl | (split <;> exact Or.inr rfl)

/-- Claim C7 (amended): the both-set-or-both-unset invariant on
`_token` / `_token_expiration` holds at construction and is preserved
by `login`/`_update_token`, `request_raw` and `request_json` — provided
every token exchange that reaches the assignment block can also extract
the uuid claim and sees a numeric `expires_in` (`ExchangeSafe`).
Without that proviso the invariant is breakable: the exchange stores
the tokens before extracting the uuid (see the counterexample). -/
theorem session_invariant_preserved
    (u p : String) (t : Int) (env : LoginEnv) (apiResp : Resp) (c : Controller) (now : Int)
    (method endpoint : String) (vin : Option String) (body params : Option Json)
    (headers : Option (List (String × Json)))
    (hsafe : ExchangeSafe env.decodeJwt env.tokenResp)
    (hc : sessionInv c = true) :
    sessionInv (initController u p t) = true ∧
    sessionInv (updateToken env c now).2.1 = true ∧
    sessionInv (requestRaw env apiResp c now method endpoint vin body params headers).state
      = true ∧
    sessionInv (requestJson env apiResp c now method endpoint vin body params headers).state
      = true := by
  have hup := updateToken_inv env c now hsafe hc
  have hraw : sessionInv
      (requestRaw env apiResp c now method endpoint vin body params headers).state = true := by
    rcases requestRaw_state env apiResp c now method endpoint vin body params headers
      with h | h <;> rw [h]
    · exact hc
    · exact hup
  refine ⟨rfl, hup, hraw, ?_⟩
  simp only [requestJson]
  split <;> exact hraw

/-- Claim C7 witness: with the benign environment `envHappy` and a fresh
controller, the invariant holds before and after every operation. -/
theorem session_invariant_preserved_witness :
    sessionInv (initController "a" "b" 30) = true ∧
    sessionInv (updateToken envHappy (initController "u" "p" 30) 0).2.1 = true ∧
    sessionInv (requestRaw envHappy ⟨200, "", .obj [], none⟩ (initController "u" "p" 30) 0
      "GET" "/x" none none none none).state = true ∧
    sessionInv (requestJson envHappy ⟨200, "", .obj [], none⟩ (initController "u" "p" 30) 0
      "GET" "/x" none none none none).state = true :=
  session_invariant_preserved "a" "b" 30 envHappy ⟨200, "", .obj [], none⟩
    (initController "u" "p" 30) 0 "GET" "/x" none none none none
    (fun _ _ => ⟨⟨.obj [("uuid", .str "uuid1")], .str "uuid1", rfl, rfl⟩, 3600, rfl⟩) rfl

/-- Looking up the key just assigned returns the assigned value. -/
theorem setAssoc_lookup_self (kvs : List (String × Json)) (k : String) (v : Json) :
    (setAssoc kvs k v).lookup k = some v := by
  induction kvs with
  | nil => simp [setAssoc, List.lookup]
  | cons hd tl ih =>
    obtain ⟨k1, v1⟩ := hd
    by_cases h : k1 = k
    · subst h
      simp [setAssoc, List.lookup]
    · have h2 : (k == k1) = false := by
        simp
        exact fun e => h e.symm
      simp [setAssoc, h, List.lookup, h2, ih]

/-- Assigning a different key leaves a lookup unchanged. -/
theorem setAssoc_lookup_ne (kvs : List (String × Json)) (k k1 : String) (v : Json)
    (h : k1 ≠ k) : (setAssoc kvs k v).lookup k1 = kvs.lookup k1 := by
  induction kvs with
  | nil =>
    have h2 : (k1 == k) = false := by simp [h]
    simp [setAssoc, List.lookup, h2]
  | cons hd tl ih =>
    obtain ⟨k2, v2⟩ := hd
    by_cases h3 : k2 = k
    · subst h3
      have h2 : (k1 == k2) = false := by simp [h]
      simp [setAssoc, List.lookup, h2]
    · simp [setAssoc, h3, List.lookup, ih]

/-- A successful `cb["input"][0]["value"] = v` leaves a prompt whose
input slot reads back as `v`. -/
theorem setInput_inputValue (cb : Json) (v : String) (cb1 : Json)
    (h : setInput cb v = .ok cb1) : inputValue cb1 = some (.str v) := by
  cases cb with
  | obj kvs =>
    unfold setInput at h
    cases hg : (Json.obj kvs).pyGet "input" with
    | error e =>
      simp only [hg] at h
      exact Except.noConfusion h
    | ok inp =>
      simp only [hg] at h
      cases inp with
      | arr xs =>
        cases xs with
        | nil => simp at h
        | cons i0 rest =>
          cases i0 with
          | obj kv0 =>
            simp only at h
            have hcb1 : (Json.obj kvs).setKey "input"
                (Json.arr ((Json.obj kv0).setKey "value" (.str v) :: rest)) = cb1 := by
              simpa using h
            rw [← hcb1]
            simp [inputValue, Json.setKey, Json.pyGet, Json.pyIdx, setAssoc_lookup_self,
              Except.toOption, Bind.bind, Except.bind]
          | null => simp at h
          | bool b => simp at h
          | num n => simp at h
          | str s => simp at h
          | arr ys => simp at h
      | obj kv2 => simp at h
      | str s =>
        simp only at h
        split at h <;> exact Except.noConfusion h
      | null => simp at h
      | bool b => simp at h
      | num n => simp at h
  | null => simp [setInput, Json.pyGet] at h
  | bool b => simp [setInput, Json.pyGet] at h
  | num n => simp [setInput, Json.pyGet] at h
  | str s => simp [setInput, Json.pyGet] at h
  | arr xs => simp [setInput, Json.pyGet] at h

/-- One pass of the fill loop establishes the fill relation between the
incoming and the resubmitted prompt. -/
theorem fillCb_rel (u p : String) (cb cb1 : Json) (h : fillCb u p cb = .ok cb1) :
    cbRel u p cb cb1 := by
  unfold fillCb at h
  cases ht : cb.pyGet "type" with
  | error e =>
    simp only [ht] at h
    exact Except.noConfusion h
  | ok t =>
    simp only [ht] at h
    have hjt : cb.jGet "type" = some t := (pyGet_ok_iff cb "type" t).mp ht
    cases t with
    | str s =>
      simp only at h
      by_cases hn : s = "NameCallback"
      · subst hn
        rw [if_pos rfl] at h
        cases hch : (do
            let out ← cb.pyGet "output"
            let o0 ← out.pyIdx 0
            o0.pyGet "value" : Except PyErr Json) with
        | error e =>
          simp only [hch] at h
          exact Except.noConfusion h
        | ok ov =>
          simp only [hch] at h
          cases ov with
          | str w =>
            simp only at h
            by_cases hw : w = "User Name"
            · subst hw
              rw [if_pos rfl] at h
              refine ⟨fun _ => setInput_inputValue cb u cb1 h, ?_, ?_⟩
              · intro h2
                exfalso
                unfold cbType at h2
                rw [hjt] at h2
                simp at h2
              · intro t2 h3 hne1 _
                exfalso
                apply hne1
                unfold cbType at h3
                rw [hjt] at h3
                simp at h3
                exact h3.symm
            · rw [if_neg hw] at h
              have hcb : cb = cb1 := by simpa using h
              refine ⟨?_, ?_, fun t2 h3 _ _ => hcb.symm⟩
              · rintro ⟨_, h2⟩
                exfalso
                apply hw
                unfold outputValue at h2
                rw [hch] at h2
                simp [Except.toOption] at h2
                exact h2
              · intro h2
                exfalso
                unfold cbType at h2
                rw [hjt] at h2
                simp at h2
          | null =>
            have hcb : cb = cb1 := by simpa using h
            refine ⟨?_, ?_, fun t2 h3 _ _ => hcb.symm⟩
            · rintro ⟨_, h2⟩
              exfalso
              unfold outputValue at h2
              rw [hch] at h2
              simp [Except.toOption] at h2
            · intro h2
              exfalso
              unfold cbType at h2
              rw [hjt] at h2
              simp at h2
          | bool b =>
            have hcb : cb = cb1 := by simpa using h
            refine ⟨?_, ?_, fun t2 h3 _ _ => hcb.symm⟩
            · rintro ⟨_, h2⟩
              exfalso
              unfold outputValue at h2
              rw [hch] at h2
              simp [Except.toOption] at h2
            · intro h2
              exfalso
              unfold cbType at h2
              rw [hjt] at h2
              simp at h2
          | num n =>
            have hcb : cb = cb1 := by simpa using h
            refine ⟨?_, ?_, fun t2 h3 _ _ => hcb.symm⟩
            · rintro ⟨_, h2⟩
              exfalso
              unfold outputValue at h2
              rw [hch] at h2
              simp [Except.toOption] at h2
            · intro h2
              exfalso
              unfold cbType at h2
              rw [hjt] at h2
              simp at h2
          | arr xs =>
            have hcb : cb = cb1 := by simpa using h
            refine ⟨?_, ?_, fun t2 h3 _ _ => hcb.symm⟩
            · rintro ⟨_, h2⟩
              exfalso
              unfold outputValue at h2
              rw [hch] at h2
              simp [Except.toOption] at h2
            · intro h2
              exfalso
              unfold cbType at h2
              rw [hjt] at h2
              simp at h2
          | obj kv2 =>
            have hcb : cb = cb1 := by simpa using h
            refine ⟨?_, ?_, fun t2 h3 _ _ => hcb.symm⟩
            · rintro ⟨_, h2⟩
              exfalso
              unfold outputValue at h2
              rw [hch] at h2
              simp [Except.toOption] at h2
            · intro h2
              exfalso
              unfold cbType at h2
              rw [hjt] at h2
              simp at h2
      · rw [if_neg hn] at h
        by_cases hp : s = "PasswordCallback"
        · subst hp
          rw [if_pos rfl] at h
          refine ⟨?_, fun _ => setInput_inputValue cb p cb1 h, ?_⟩
          · rintro ⟨h1, _⟩
            exfalso
            unfold cbType at h1
            rw [hjt] at h1
            simp at h1
          · intro t2 h3 _ hne2
            exfalso
            apply hne2
            unfold cbType at h3
            rw [hjt] at h3
            simp at h3
            exact h3.symm
        · rw [if_neg hp] at h
          have hcb : cb = cb1 := by simpa using h
          refine ⟨?_, ?_, fun _ _ _ _ => hcb.symm⟩
          · rintro ⟨h1, _⟩
            exfalso
            apply hn
            unfold cbType at h1
            rw [hjt] at h1
            simp at h1
            exact h1
          · intro h2
            exfalso
            apply hp
            unfold cbType at h2
            rw [hjt] at h2
            simp at h2
            exact h2
    | null =>
      simp only at h
      have hcb : cb = cb1 := by simpa using h
      refine ⟨?_, ?_, fun _ _ _ _ => hcb.symm⟩
      · rintro ⟨h1, _⟩
        exfalso
        unfold cbType at h1
        rw [hjt] at h1
        simp at h1
      · intro h2
        exfalso
        unfold cbType at h2
        rw [hjt] at h2
        simp at h2
    | bool b =>
      simp only at h
      have hcb : cb = cb1 := by simpa using h
      refine ⟨?_, ?_, fun _ _ _ _ => hcb.symm⟩
      · rintro ⟨h1, _⟩
        exfalso
        unfold cbType at h1
        rw [hjt] at h1
        simp at h1
      · intro h2
        exfalso
        unfold cbType at h2
        rw [hjt] at h2
        simp at h2
    | num n =>
      simp only at h
      have hcb : cb = cb1 := by simpa using h
      refine ⟨?_, ?_, fun _ _ _ _ => hcb.symm⟩
      · rintro ⟨h1, _⟩
        exfalso
        unfold cbType at h1
        rw [hjt] at h1
        simp at h1
      · intro h2
        exfalso
        unfold cbType at h2
        rw [hjt] at h2
        simp at h2
    | arr xs =>
      simp only at h
      have hcb : cb = cb1 := by simpa using h
      refine ⟨?_, ?_, fun _ _ _ _ => hcb.symm⟩
      · rintro ⟨h1, _⟩
        exfalso
        unfold cbType at h1
        rw [hjt] at h1
        simp at h1
      · intro h2
        exfalso
        unfold cbType at h2
        rw [hjt] at h2
        simp at h2
    | obj kv2 =>
      simp only at h
      have hcb : cb = cb1 := by simpa using h
      refine ⟨?_, ?_, fun _ _ _ _ => hcb.symm⟩
      · rintro ⟨h1, _⟩
        exfalso
        unfold cbType at h1
        rw [hjt] at h1
        simp at h1
      · intro h2
        exfalso
        unfold cbType at h2
        rw [hjt] at h2
        simp at h2

/-- Claim C8: whenever the fill loop over a server-supplied prompt list
completes, the resubmitted list is element-wise related to the incoming
one: the prompt of type `NameCallback` whose declared purpose is
`"User Name"` has its input slot filled with the stored username, every
prompt of type `PasswordCallback` has its input slot filled with the
stored password, and every prompt of any other type is passed through
unmodified. -/
theorem fill_callbacks_spec (u p : String) (cbs cbs1 : List Json)
    (h : fillCallbacks u p cbs = .ok cbs1) :
    List.Forall₂ (cbRel u p) cbs cbs1 := by
  induction cbs generalizing cbs1 with
  | nil =>
    simp [fillCallbacks] at h
    subst h
    exact List.Forall₂.nil
  | cons cb rest ih =>
    simp only [fillCallbacks] at h
    cases hc : fillCb u p cb with
    | error e =>
      simp only [hc] at h
      exact Except.noConfusion h
    | ok cb1 =>
      simp only [hc] at h
      cases hr : fillCallbacks u p rest with
      | error e =>
        simp only [hr] at h
        exact Except.noConfusion h
      | ok rest1 =>
        simp only [hr] at h
        have h2 : cb1 :: rest1 = cbs1 := by simpa using h
        rw [← h2]
        exact List.Forall₂.cons (fillCb_rel u p cb cb1 hc) (ih rest1 hr)

/-- Claim C8 witness: a round with a username prompt, a password prompt
and an unrecognised prompt fills the first two and passes the third
through untouched. -/
theorem fill_callbacks_spec_witness :
    List.Forall₂ (cbRel "USER" "PASS") [nameCb, passCb, otherCb]
      [.obj [("type", .str "NameCallback"),
             ("output", .arr [.obj [("value", .str "User Name")]]),
             ("input", .arr [.obj [("name", .str "IDToken1"), ("value", .str "USER")]])],
       .obj [("type", .str "PasswordCallback"),
             ("input", .arr [.obj [("value", .str "PASS")]])],
       otherCb] :=
  fill_callbacks_spec "USER" "PASS" [nameCb, passCb, otherCb]
    [.obj [("type", .str "NameCallback"),
           ("output", .arr [.obj [("value", .str "User Name")]]),
           ("input", .arr [.obj [("name", .str "IDToken1"), ("value", .str "USER")]])],
     .obj [("type", .str "PasswordCallback"),
           ("input", .arr [.obj [("value", .str "PASS")]])],
     otherCb] rfl

/-- Claim C9: `request_raw` holds no lock around the
check-validity-then-login section (lines 135-136).  In the cooperative
interleaving of two concurrent calls on one controller with an invalid
session, the schedule A, B, A, B makes task A check validity and enter
the login, suspend at the login's first HTTP await, and then task B —
with the token still unset — check validity and enter a second login:
both tasks finish and two full login sequences were executed, where the
claim demands exactly one. -/
theorem concurrent_login_duplicated :
    (concRun [true, false, true, false] concInit).logins = 2 ∧
    (concRun [true, false, true, false] concInit).pcA.isFinished = true ∧
    (concRun [true, false, true, false] concInit).pcB.isFinished = true ∧
    (concRun [true, false, true, false] concInit).valid = true :=
  ⟨rfl, rfl, rfl, rfl⟩

/-- Claim C10: with a caller-supplied headers dict (heap cell `i`), the
header-construction step of `request_raw` mutates that very cell in
place — same address handed to the transport, no new cell allocated —
and in the merged dict every session-derived and client-identity header
(and `vin` when a vehicle identifier is given) holds the controller's
value, overwriting any caller-supplied entry of the same name. -/
theorem headers_merge_overwrites (store : DictStore) (i : Nat) (c : Controller)
    (vin : String) (h : i < store.length) :
    (headersStep store (some i) c (some vin)).2 = i ∧
    (headersStep store (some i) c (some vin)).1.length = store.length ∧
    (headersStep store (some i) c (some vin)).1.get? i =
      some (mergeHeaders c (some vin) ((store.get? i).getD [])) ∧
    (∀ d, dictLookup (mergeHeaders c (some vin) d) "x-api-key" =
        some (.str "tTZipv6liF74PwMfk9Ed68AQ0bISswwf3iHQdqcF") ∧
      dictLookup (mergeHeaders c (some vin) d) "x-guid" = some ((c.uuid).getD .null) ∧
      dictLookup (mergeHeaders c (some vin) d) "guid" = some ((c.uuid).getD .null) ∧
      dictLookup (mergeHeaders c (some vin) d) "authorization" =
        some (.str ("Bearer " ++ pyStrOpt c.token)) ∧
      dictLookup (mergeHeaders c (some vin) d) "x-channel" = some (.str "ONEAPP") ∧
      dictLookup (mergeHeaders c (some vin) d) "x-brand" = some (.str "T") ∧
      dictLookup (mergeHeaders c (some vin) d) "user-agent" = some (.str "okhttp/4.10.0") ∧
      dictLookup (mergeHeaders c (some vin) d) "vin" = some (.str vin)) := by
  refine ⟨rfl, by simp [headersStep], ?_, ?_⟩
  · simp [headersStep, List.getElem?_set_eq_of_lt _ h]
  · intro d
    refine ⟨?_, ?_, ?_, ?_, ?_, ?_, ?_, ?_⟩ <;>
      simp [mergeHeaders, dictUpdate, sessionHeaders, dictLookup,
        setAssoc_lookup_self, setAssoc_lookup_ne]

/-- Claim C10 witness: a one-cell store whose dict pre-sets
`authorization` and `x-brand`; the step keeps the address and the store
size, and the merged dict holds the session values for every reserved
name. -/
theorem headers_merge_overwrites_witness :
    (headersStep [[("authorization", .str "caller"), ("x-brand", .str "Z")]] (some 0)
      liveTokenState (some "VIN1")).2 = 0 ∧
    (headersStep [[("authorization", .str "caller"), ("x-brand", .str "Z")]] (some 0)
      liveTokenState (some "VIN1")).1.length = 1 ∧
    (headersStep [[("authorization", .str "caller"), ("x-brand", .str "Z")]] (some 0)
      liveTokenState (some "VIN1")).1.get? 0 =
      some (mergeHeaders liveTokenState (some "VIN1")
        (([[("authorization", .str "caller"), ("x-brand", .str "Z")]].get? 0).getD [])) ∧
    dictLookup (mergeHeaders liveTokenState (some "VIN1")
        [("authorization", .str "caller"), ("x-brand", .str "Z")]) "authorization" =
      some (.str "Bearer tok") ∧
    dictLookup (mergeHeaders liveTokenState (some "VIN1")
        [("authorization", .str "caller"), ("x-brand", .str "Z")]) "vin" =
      some (.str "VIN1") := by
  have hmain := headers_merge_overwrites [[("authorization", .str "caller"),
    ("x-brand", .str "Z")]] 0 liveTokenState "VIN1" (by decide)
  refine ⟨hmain.1, hmain.2.1, hmain.2.2.1, ?_, ?_⟩
  · have h4 := (hmain.2.2.2 [("authorization", .str "caller"), ("x-brand", .str "Z")]).2.2.2.1
    simpa [liveTokenState, pyStrOpt] using h4
  · exact (hmain.2.2.2 [("authorization", .str "caller"), ("x-brand", .str "Z")]).2.2.2.2.2.2.2
